import Mathlib

/-!
Shallow embedding of `src/extool.py` (rusq/extool), a batch renamer that turns
image/video files into canonical names of the form
`IMG_<YYYYMMDDTHHMMSS±HHMM>[-N]_<Model>.<ext>` derived from EXIF metadata.

Conventions of the embedding:
  * A metadata record (Python dict of tag → string) is `Exif := List (String × String)`;
    `dict.get(k)` is `List.lookup k`, returning `Option String` (`none` = Python `None`).
  * Python exceptions that the relevant code paths can raise are made explicit via
    `Except PyExc`; a Python function that can return `None` returns `Option String`.
  * The process working directory (searched by `glob.glob` in `check_for_live`) is an
    explicit listing `cwd : List String` of the file names in it.
  * The directory holding the file being renamed is a map `fs : String → Option FileData`
    from sibling file name to the file's stat/content data.
  * The external library `dateutil.parser.parse` is modelled (`parseDateTime`) restricted
    to the two input layouts the source documents (`YYYY/MM/DD HH:MM:SS` with an optional
    `±HH:MM` suffix, after the source's `replace(':', '/', 2)` normalisation).
-/

set_option autoImplicit false

namespace Extool

/-- Python exceptions that the embedded code paths can raise:
`ValueError` from date parsing, `TypeError` from operating on `None`. -/
inductive PyExc where
  | valueError
  | typeError
deriving DecidableEq

/-- A metadata record: mapping from namespaced tag name to string value. -/
abbrev Exif := List (String × String)

/-- Models `dict.get(tag)`: `none` when the key is absent. -/
def exifGet (exif : Exif) (tag : String) : Option String :=
  List.lookup tag exif

/-- Python `s.startswith(pre)`, computed structurally on character lists. -/
def pyStartsWith (pre s : String) : Bool := pre.toList.isPrefixOf s.toList

/-- Suffix test, computed structurally on character lists. -/
def pyEndsWith (suf s : String) : Bool := suf.toList.isSuffixOf s.toList

/-- Rendering of a possibly-`None` Python value by `str.format` / string concatenation:
Python renders `None` as the string `"None"`. -/
def pyStr : Option String → String
  | some s => s
  | none => "None"

/-- Python truthiness of an optional string: `None` and `""` are falsy. -/
def truthyStr : Option String → Bool
  | some s => s != ""
  | none => false

/-- The characters Python's `str.strip()` removes (the `string.whitespace` set). -/
def pyIsSpace (c : Char) : Bool :=
  c = ' ' || c = '\t' || c = '\n' || c = '\r' || c = '\x0b' || c = '\x0c'

/-- Models Python `s.strip()`: drop leading and trailing whitespace. -/
def pyStrip (s : String) : String :=
  String.mk ((s.toList.dropWhile pyIsSpace).rdropWhile pyIsSpace)

/-- The character map performed by `.replace(' ', '-')`. -/
def spaceToHyphen (c : Char) : Char := if c = ' ' then '-' else c

/-- Embeds `slugify` (extool.py:123-131): `string.strip().replace(' ', '-') if string
else 'noEXIF'`.  The argument is the possibly-absent camera model string. -/
def slugify : Option String → String
  | none => "noEXIF"
  | some s => if s = "" then "noEXIF" else String.mk ((pyStrip s).toList.map spaceToHyphen)

/-- Embeds `get_model` (extool.py:134-150): first truthy value among `EXIF:Model`,
`QuickTime:Model` (the loop leaves the last looked-up value in `ret` when none is
truthy), passed through `slugify`. -/
def get_model (exif : Exif) : String :=
  let r1 := exifGet exif "EXIF:Model"
  slugify (if truthyStr r1 then r1 else exifGet exif "QuickTime:Model")

/-- Models `s.replace(':', '/', 2)` on a character list: replace at most `n` first
occurrences of `':'` by `'/'`. -/
def replaceColonSlash : List Char → Nat → List Char
  | [], _ => []
  | c :: cs, 0 => c :: cs
  | c :: cs, n + 1 =>
    if c = ':' then '/' :: replaceColonSlash cs n
    else c :: replaceColonSlash cs (n + 1)

/-- Models `dttm_str.replace(':', '/', 2)` (extool.py:176). -/
def replaceColons2 (s : String) : String := String.mk (replaceColonSlash s.toList 2)

/-- A timezone offset as carried by the parsed datetime: sign and HH/MM fields. -/
structure PyTz where
  neg : Bool
  h : Nat
  m : Nat
deriving DecidableEq

/-- A parsed datetime value (the fields of `datetime.datetime`, with an optional
fixed-offset timezone). -/
structure PyDateTime where
  year : Nat
  month : Nat
  day : Nat
  hour : Nat
  minute : Nat
  second : Nat
  tz : Option PyTz
deriving DecidableEq

/-- Value of a decimal digit character, if it is one. -/
def digitVal (c : Char) : Option Nat :=
  if c.isDigit then some (c.toNat - 48) else none

/-- Read exactly two decimal digits. -/
def read2 : List Char → Option (Nat × List Char)
  | a :: b :: rest =>
    match digitVal a, digitVal b with
    | some x, some y => some (10 * x + y, rest)
    | _, _ => none
  | _ => none

/-- Read exactly four decimal digits. -/
def read4 : List Char → Option (Nat × List Char)
  | a :: b :: c :: d :: rest =>
    match digitVal a, digitVal b, digitVal c, digitVal d with
    | some x1, some x2, some x3, some x4 => some (1000 * x1 + 100 * x2 + 10 * x3 + x4, rest)
    | _, _, _, _ => none
  | _ => none

/-- Consume one expected character. -/
def expectChar (c : Char) : List Char → Option (List Char)
  | x :: rest => if x = c then some rest else none
  | [] => none

/-- Range validity enforced by `datetime.datetime` construction (calendar-exact day
counts per month are abstracted to `1..31`; no claim depends on them). -/
def validDT (mo d h mi s : Nat) : Bool :=
  1 ≤ mo && mo ≤ 12 && 1 ≤ d && d ≤ 31 && h ≤ 23 && mi ≤ 59 && s ≤ 59

/-- Modelled from the spec: `dateutil.parser.parse` (an external library), restricted to
the two layouts the source documents after its `replace(':', '/', 2)` normalisation —
`YYYY/MM/DD HH:MM:SS` and `YYYY/MM/DD HH:MM:SS±HH:MM`.  `none` models a raised
`ValueError`. -/
def parseDateTime (s : String) : Option PyDateTime := do
  let cs := s.toList
  let (y, cs) ← read4 cs
  let cs ← expectChar '/' cs
  let (mo, cs) ← read2 cs
  let cs ← expectChar '/' cs
  let (d, cs) ← read2 cs
  let cs ← expectChar ' ' cs
  let (h, cs) ← read2 cs
  let cs ← expectChar ':' cs
  let (mi, cs) ← read2 cs
  let cs ← expectChar ':' cs
  let (sec, cs) ← read2 cs
  if !validDT mo d h mi sec then none
  else
    match cs with
    | [] => some ⟨y, mo, d, h, mi, sec, none⟩
    | sgn :: rest =>
      if sgn = '+' || sgn = '-' then do
        let (oh, rest) ← read2 rest
        let rest ← expectChar ':' rest
        let (om, rest) ← read2 rest
        if rest = [] && oh ≤ 23 && om ≤ 59 then
          some ⟨y, mo, d, h, mi, sec, some ⟨sgn = '-', oh, om⟩⟩
        else none
      else none

/-- Zero-pad a rendered natural to the given width. -/
def padZ (w n : Nat) : String :=
  let s := toString n
  String.mk (List.replicate (w - s.length) '0') ++ s

/-- Models `dttm.strftime("%Y%m%dT%H%M%S%z")` (extool.py:153,187): `%z` renders the
UTC offset as `±HHMM` for an aware datetime and as the empty string for a naive one. -/
def strftimeTZ (dt : PyDateTime) : String :=
  padZ 4 dt.year ++ padZ 2 dt.month ++ padZ 2 dt.day ++ "T" ++
    padZ 2 dt.hour ++ padZ 2 dt.minute ++ padZ 2 dt.second ++
    (match dt.tz with
     | none => ""
     | some t => (if t.neg then "-" else "+") ++ padZ 2 t.h ++ padZ 2 t.m)

/-- The fixed candidate tag order of `get_date` (extool.py:163-168). -/
def dateTags : List String :=
  ["EXIF:DateTimeOriginal", "QuickTime:CreationDate",
   "QuickTime:MediaCreateDate", "File:FileModifyDate"]

/-- The `for tag in tags` loop body of `get_date` (extool.py:169-188): skip an absent,
empty or `0000`-sentinel value; otherwise normalise the first two colons, parse
(re-raising `ValueError` on failure) and render via `strftime`. -/
def getDateAux (exif : Exif) : List String → Except PyExc (Option String)
  | [] => Except.ok none
  | tag :: rest =>
    match exifGet exif tag with
    | none => getDateAux exif rest
    | some v =>
      if v == "" || pyStartsWith "0000" v then getDateAux exif rest
      else
        match parseDateTime (replaceColons2 v) with
        | none => Except.error PyExc.valueError
        | some dt => Except.ok (some (strftimeTZ dt))

/-- Embeds `get_date` (extool.py:153-189) at the default output format.
`Except.ok none` is the Python `return None` (no candidate tag matched);
`Except.error .valueError` is the re-raised parse failure. -/
def get_date (exif : Exif) : Except PyExc (Option String) :=
  getDateAux exif dateTags

/-- The module constant `ABBREVIATIONS` (extool.py:55). -/
def ABBREVIATIONS : List (String × String) := [("image", "IMG"), ("video", "VID")]

/-- Embeds `get_prefix` (extool.py:192-200):
`ABBREVIATIONS.get(mime.split('/')[0]) if mime else None`. -/
def get_prefix (exif : Exif) : Option String :=
  match exifGet exif "File:MIMEType" with
  | none => none
  | some mime =>
    if mime == "" then none
    else List.lookup (String.mk (mime.toList.takeWhile (fun c => c != '/'))) ABBREVIATIONS

/-- Models `os.path.splitext(s)[0]`: the part before the last `'.'`, unless every
character before that dot is itself a dot (then the name is returned unsplit). -/
def splitextStem (s : String) : String :=
  let cs := s.toList
  match ((List.range cs.length).filter (fun i => cs.getD i ' ' == '.')).getLast? with
  | none => s
  | some i => if (cs.take i).any (fun c => c != '.') then String.mk (cs.take i) else s

/-- The glob pattern prefix built in `check_for_live` (extool.py:243-244):
`"IMG_" + date-with-offset-chopped + conflict + "_"`; Python's
`date[:date.index('+')]` when `'+' in date` equals `takeWhile (· != '+')`. -/
def liveGlobPat (date conflict : String) : String :=
  "IMG_" ++ String.mk (date.toList.takeWhile (fun c => c != '+')) ++ conflict ++ "_"

/-- A file name matches the glob `<pat>*.JPG` exactly when it decomposes as
`pat ++ mid ++ ".JPG"` (file names contain no `/`; `pat` contains no glob
metacharacter for the date strings the program builds). -/
def globLiveMatch (pat f : String) : Bool :=
  pyStartsWith pat f && pyEndsWith ".JPG" f && decide (pat.length + 4 ≤ f.length)

/-- Embeds `check_for_live` (extool.py:226-252).  `date` is the possibly-`None` value of
`get_date`; `cwd` is the working-directory listing searched by `glob.glob`.
`Except.error .typeError` is the `TypeError` Python raises on `'+' in None` when
`ext == 'MOV'` and the date is `None`; the final fall-through of the Python function
(non-`'MOV'` extension) returns `None`. -/
def check_for_live (date : Option String) (conflict : String) (ext : Option String)
    (cwd : List String) : Except PyExc (Option String) :=
  if ext == some "MOV" then
    match date with
    | none => Except.error PyExc.typeError
    | some d =>
      match cwd.filter (globLiveMatch (liveGlobPat d conflict)) with
      | [] => Except.ok none
      | [f] => Except.ok (some (splitextStem f ++ "." ++ pyStr ext))
      | _ :: _ :: _ => Except.ok none
  else Except.ok none

/-- The disambiguator: `'' if retry == 0 else "-{}".format(retry)` (extool.py:215). -/
def conflictStr (retry : Nat) : String :=
  if retry == 0 then "" else "-" ++ toString retry

/-- Embeds `generate_name` (extool.py:203-223).  `Except.ok none` is the Python
`return None` (no prefix: not an image/video MIME type); exceptions from `get_date`
and `check_for_live` propagate.  Note the composed name renders the date and the
extension through Python's formatting of possibly-`None` values (`pyStr`). -/
def generate_name (exif : Exif) (retry : Nat) (cwd : List String) :
    Except PyExc (Option String) :=
  match get_prefix exif with
  | none => Except.ok none
  | some pfx =>
    match get_date exif with
    | Except.error e => Except.error e
    | Except.ok date =>
      match check_for_live date (conflictStr retry) (exifGet exif "File:FileTypeExtension") cwd with
      | Except.error e => Except.error e
      | Except.ok (some live) => Except.ok (some live)
      | Except.ok none =>
        Except.ok (some (pfx ++ "_" ++ pyStr date ++ conflictStr retry ++ "_" ++
          get_model exif ++ "." ++ pyStr (exifGet exif "File:FileTypeExtension")))

/-- Stat data and content of a regular file, as consulted by `filecmp.cmp`:
`st_size` is the byte count of the content, `st_mtime` is explicit. -/
structure FileData where
  mtime : Nat
  bytes : List Nat
deriving DecidableEq

/-- The `os.stat` signature `filecmp._sig` compares: (size, mtime); the file-type
component is constant here since both paths are regular files. -/
def statSig (f : FileData) : Nat × Nat := (f.bytes.length, f.mtime)

/-- Embeds `filecmp.cmp(f1, f2)` at its default `shallow=True` (extool.py:271): equal
stat signatures short-circuit to `True` without reading content; otherwise differing
sizes give `False`, else the contents are compared byte for byte. -/
def filecmp_cmp (f1 f2 : FileData) : Bool :=
  if statSig f1 == statSig f2 then true
  else if f1.bytes.length != f2.bytes.length then false
  else f1.bytes == f2.bytes

/-- Outcome of the embedded `rename` (extool.py:255-284).  `renamed` (with the target
name) is the `os.rename` success path returning `True`; `alreadyExists` is the
`filecmp`-equal path returning `True` with a warning; `exhausted` is the `break`
returning `False`; `pyError` is an exception propagating out of the loop
(`generate_name` raising, or `os.path.join` on a `None` name raising `TypeError`). -/
inductive RenameResult where
  | renamed : String → RenameResult
  | alreadyExists : String → RenameResult
  | exhausted : RenameResult
  | pyError : PyExc → RenameResult
deriving DecidableEq

/-- The `while not renamed` loop of `rename` (extool.py:267-283), entered at a given
`retry` counter.  `fs` maps a sibling file name to its data (`none`: no such file, so
`os.path.exists` is false and `os.rename` succeeds); `src` is the data of `file_from`;
`cwd` is the working-directory listing seen by the glob in `generate_name`. -/
def renameLoop (src : FileData) (fs : String → Option FileData) (exif : Exif)
    (cwd : List String) (maxRename : Nat) (retry : Nat) : RenameResult :=
  match generate_name exif retry cwd with
  | Except.error e => RenameResult.pyError e
  | Except.ok none => RenameResult.pyError PyExc.typeError
  | Except.ok (some name) =>
    match fs name with
    | none => RenameResult.renamed name
    | some tgt =>
      if filecmp_cmp src tgt then RenameResult.alreadyExists name
      else if h : maxRename < retry then RenameResult.exhausted
      else renameLoop src fs exif cwd maxRename (retry + 1)
termination_by maxRename + 1 - retry
decreasing_by simp_wf; omega

/-- Embeds `rename` (extool.py:255-284): the loop started at `retry_count = 0`.
The Python default is `max_rename=20`. -/
def rename (src : FileData) (fs : String → Option FileData) (exif : Exif)
    (cwd : List String) (maxRename : Nat) : RenameResult :=
  renameLoop src fs exif cwd maxRename 0

/-- Result of the embedded `get_metadata`: either a metadata record, or the
`UnboundLocalError` raised by `return meta` when `except ValueError: pass` left the
local unassigned, or the `IndexError` from `[0]` on an empty JSON list. -/
inductive MetaResult where
  | ok : Exif → MetaResult
  | unboundLocalError : MetaResult
  | indexError : MetaResult
deriving DecidableEq

/-- Embeds the module-level `get_metadata` (extool.py:287-298) — `Renamer.get_metadata`
(extool.py:87-100) has the identical structure.  `exiftoolMeta` is the record the
exiftool handle returns when that backend is present (its `ExifTool:Error` check is a
no-op `pass`); `pyexifinfoJson` is the outcome of `pyexifinfo.get_json(filename)`:
`Except.error ()` models a raised `ValueError`.  On the `ValueError` path the local
`md` is never assigned, so the final `return md` raises `UnboundLocalError`. -/
def get_metadata (exiftoolMeta : Option Exif) (pyexifinfoJson : Except Unit (List Exif)) :
    MetaResult :=
  match exiftoolMeta with
  | some md => MetaResult.ok md
  | none =>
    match pyexifinfoJson with
    | Except.error _ => MetaResult.unboundLocalError
    | Except.ok [] => MetaResult.indexError
    | Except.ok (md :: _) => MetaResult.ok md

/-- Decidable equality for `Except`, so that concrete runs of the embedded functions
can be settled by `decide`. -/
instance instDecEqExcept {ε α : Type} [DecidableEq ε] [DecidableEq α] :
    DecidableEq (Except ε α) := fun x y =>
  match x, y with
  | Except.ok a, Except.ok b =>
    if h : a = b then isTrue (by rw [h]) else
      isFalse (fun hc => h (by cases hc; rfl))
  | Except.error a, Except.error b =>
    if h : a = b then isTrue (by rw [h]) else
      isFalse (fun hc => h (by cases hc; rfl))
  | Except.ok _, Except.error _ => isFalse (fun hc => by cases hc)
  | Except.error _, Except.ok _ => isFalse (fun hc => by cases hc)

/-- The worked example record of the spec (section 8): a Canon JPEG with a
timezone-carrying capture date. -/
def sampleExif : Exif :=
  [("EXIF:DateTimeOriginal", "2016:12:11 13:34:33+13:00"),
   ("File:MIMEType", "image/jpeg"),
   ("File:FileTypeExtension", "JPG"),
   ("EXIF:Model", "Canon EOS 10D")]

/-- A QuickTime movie record with a capture date, used to exercise the
live-photo path of `check_for_live`. -/
def movExif : Exif :=
  [("File:MIMEType", "video/quicktime"),
   ("File:FileTypeExtension", "MOV"),
   ("QuickTime:CreationDate", "2016:12:11 13:34:33+13:00")]

/-- When the extension is not the string `MOV`, `check_for_live` falls through and
returns `None` without consulting the directory listing. -/
theorem check_for_live_not_mov (date : Option String) (conflict : String)
    (ext : Option String) (cwd : List String) (h : (ext == some "MOV") = false) :
    check_for_live date conflict ext cwd = Except.ok none := by
  unfold check_for_live
  rw [h]
  rfl

/-- Loop step: a free target name is taken by `os.rename` and the loop returns it. -/
theorem renameLoop_found (src : FileData) (fs : String → Option FileData) (exif : Exif)
    (cwd : List String) (maxR retry : Nat) (name : String)
    (hgen : generate_name exif retry cwd = Except.ok (some name))
    (hfs : fs name = none) :
    renameLoop src fs exif cwd maxR retry = RenameResult.renamed name := by
  unfold renameLoop
  simp only [hgen, hfs]

/-- Loop step: an occupied target that `filecmp.cmp` reports equal stops the loop as
the duplicate-detected success. -/
theorem renameLoop_identical (src : FileData) (fs : String → Option FileData)
    (exif : Exif) (cwd : List String) (maxR retry : Nat) (name : String) (tgt : FileData)
    (hgen : generate_name exif retry cwd = Except.ok (some name))
    (hfs : fs name = some tgt)
    (hcmp : filecmp_cmp src tgt = true) :
    renameLoop src fs exif cwd maxR retry = RenameResult.alreadyExists name := by
  unfold renameLoop
  simp only [hgen, hfs, hcmp, if_true]

/-- Loop step: an occupied, `filecmp`-different target with the counter not yet over
the cap increments the counter and retries. -/
theorem renameLoop_collide (src : FileData) (fs : String → Option FileData)
    (exif : Exif) (cwd : List String) (maxR retry : Nat) (name : String) (tgt : FileData)
    (hgen : generate_name exif retry cwd = Except.ok (some name))
    (hfs : fs name = some tgt)
    (hcmp : filecmp_cmp src tgt = false)
    (hle : retry ≤ maxR) :
    renameLoop src fs exif cwd maxR retry = renameLoop src fs exif cwd maxR (retry + 1) := by
  rw [renameLoop]
  simp only [hgen, hfs, hcmp]
  rw [if_neg Bool.false_ne_true, dif_neg (by omega)]

/-- Loop step: an occupied, `filecmp`-different target with the counter over the cap
breaks out of the loop, reporting failure. -/
theorem renameLoop_stop (src : FileData) (fs : String → Option FileData)
    (exif : Exif) (cwd : List String) (maxR retry : Nat) (name : String) (tgt : FileData)
    (hgen : generate_name exif retry cwd = Except.ok (some name))
    (hfs : fs name = some tgt)
    (hcmp : filecmp_cmp src tgt = false)
    (hgt : maxR < retry) :
    renameLoop src fs exif cwd maxR retry = RenameResult.exhausted := by
  rw [renameLoop]
  simp only [hgen, hfs, hcmp]
  rw [if_neg Bool.false_ne_true, dif_pos hgt]

/-- If every candidate name from the current counter up to `maxR + 1` names an
existing, `filecmp`-different file, the loop ends in `exhausted`. -/
theorem renameLoop_exhausts (src : FileData) (fs : String → Option FileData)
    (exif : Exif) (cwd : List String) (maxR : Nat) :
    ∀ n retry, maxR + 1 - retry = n → retry ≤ maxR + 1 →
    (∀ k, retry ≤ k → k ≤ maxR + 1 → ∃ name tgt,
      generate_name exif k cwd = Except.ok (some name) ∧
      fs name = some tgt ∧ filecmp_cmp src tgt = false) →
    renameLoop src fs exif cwd maxR retry = RenameResult.exhausted := by
  intro n
  induction n with
  | zero =>
    intro retry h0 hle hcol
    obtain ⟨name, tgt, hgen, hfs, hcmp⟩ := hcol retry le_rfl hle
    exact renameLoop_stop src fs exif cwd maxR retry name tgt hgen hfs hcmp (by omega)
  | succ n ih =>
    intro retry h0 hle hcol
    obtain ⟨name, tgt, hgen, hfs, hcmp⟩ := hcol retry le_rfl hle
    rw [renameLoop_collide src fs exif cwd maxR retry name tgt hgen hfs hcmp (by omega)]
    exact ih (retry + 1) (by omega) (by omega) (fun k h1 h2 => hcol k (by omega) h2)

/-- If every candidate name strictly below `K` names an existing `filecmp`-different
file, and the candidate at `K ≤ maxR + 1` is free, the loop renames to it. -/
theorem renameLoop_renamed_after (src : FileData) (fs : String → Option FileData)
    (exif : Exif) (cwd : List String) (maxR : Nat) :
    ∀ n retry K nameK, K - retry = n → retry ≤ K → K ≤ maxR + 1 →
    (∀ k, retry ≤ k → k < K → ∃ name tgt,
      generate_name exif k cwd = Except.ok (some name) ∧
      fs name = some tgt ∧ filecmp_cmp src tgt = false) →
    generate_name exif K cwd = Except.ok (some nameK) →
    fs nameK = none →
    renameLoop src fs exif cwd maxR retry = RenameResult.renamed nameK := by
  intro n
  induction n with
  | zero =>
    intro retry K nameK h0 hrK hK _hcol hgen hfs
    have : retry = K := by omega
    subst this
    exact renameLoop_found src fs exif cwd maxR retry nameK hgen hfs
  | succ n ih =>
    intro retry K nameK h0 hrK hK hcol hgen hfs
    obtain ⟨name, tgt, hg, hf, hc⟩ := hcol retry le_rfl (by omega)
    rw [renameLoop_collide src fs exif cwd maxR retry name tgt hg hf hc (by omega)]
    exact ih (retry + 1) K nameK (by omega) (by omega) hK
      (fun k h1 h2 => hcol k (by omega) h2) hgen hfs

/-- C6: for the spec's worked example record — Canon JPEG, capture date
`2016:12:11 13:34:33+13:00` — the canonical name computed at retry count 0 is
`IMG_20161211T133433+1300_Canon-EOS-10D.JPG`, whatever the working directory holds
(the extension is not `MOV`, so the live-photo glob is never consulted). -/
theorem c6_canonical_name (cwd : List String) :
    generate_name sampleExif 0 cwd =
      Except.ok (some "IMG_20161211T133433+1300_Canon-EOS-10D.JPG") := rfl

/-- C10: with the pyexifinfo backend (no exiftool handle), a `ValueError` raised by
`pyexifinfo.get_json` leaves the local `md` unassigned (`except ValueError: pass`),
so `get_metadata` ends in `UnboundLocalError` instead of returning a record or a
distinguished extraction error. -/
theorem c10_unbound_local :
    get_metadata none (Except.error ()) = MetaResult.unboundLocalError := rfl

/-- The C3 failing input: an image record carrying none of the four date tags. -/
def c3exif : Exif := [("File:MIMEType", "image/jpeg"), ("File:FileTypeExtension", "JPG")]

/-- C3: when no date candidate tag is present, `get_date` returns `None`, yet
`generate_name` does not fail — Python's string formatting renders the `None` date as
the placeholder text `None`, producing `IMG_None_noEXIF.JPG`, which `rename` would
then use.  This contradicts the claim (and the module's own documented
`IMG_<YYYYMMDD>T<HH24MISS>_<model>.<ext>` mask). -/
theorem c3_placeholder_name (cwd : List String) :
    get_date c3exif = Except.ok none ∧
    generate_name c3exif 0 cwd = Except.ok (some "IMG_None_noEXIF.JPG") := ⟨rfl, rfl⟩

/-- C1 (amended): for every record whose `File:FileTypeExtension` is not `MOV`, the
canonical name is a pure function of (record, retry count) — it does not depend on
the working-directory listing. -/
theorem c1_pure_for_non_mov (exif : Exif) (retry : Nat) (cwd cwd2 : List String)
    (h : exifGet exif "File:FileTypeExtension" ≠ some "MOV") :
    generate_name exif retry cwd = generate_name exif retry cwd2 := by
  have hb : (exifGet exif "File:FileTypeExtension" == some "MOV") = false :=
    beq_eq_false_iff_ne.mpr h
  unfold generate_name
  cases hp : get_prefix exif with
  | none => rfl
  | some pfx =>
    cases hd : get_date exif with
    | error e => rfl
    | ok date =>
      dsimp only
      rw [check_for_live_not_mov date (conflictStr retry) _ cwd hb,
          check_for_live_not_mov date (conflictStr retry) _ cwd2 hb]

/-- C1 counterexample: for a `MOV` record, the very same (record, retry count) pair
yields different canonical names under different working-directory states — the
live-photo glob is filesystem I/O inside the name computation. -/
theorem c1_counterexample :
    generate_name movExif 0 [] =
      Except.ok (some "VID_20161211T133433+1300_noEXIF.MOV") ∧
    generate_name movExif 0 ["IMG_20161211T133433_x.JPG"] =
      Except.ok (some "IMG_20161211T133433_x.MOV") ∧
    generate_name movExif 0 [] ≠ generate_name movExif 0 ["IMG_20161211T133433_x.JPG"] := by
  refine ⟨rfl, rfl, ?_⟩
  decide

/-- Witness for C1 (amended) at a concrete non-`MOV` record and two directory states. -/
theorem c1_witness :
    generate_name sampleExif 5 [] =
      generate_name sampleExif 5 ["IMG_20161211T133433-5_x.JPG"] :=
  c1_pure_for_non_mov sampleExif 5 [] ["IMG_20161211T133433-5_x.JPG"] (by decide)

/-- C7: a candidate date tag whose value begins with the all-zero sentinel `0000` is
skipped — date resolution falls through to the next tag of the fixed order without
raising and without treating the sentinel as a timestamp; and `get_date` is exactly
this resolution over the fixed order `EXIF:DateTimeOriginal, QuickTime:CreationDate,
QuickTime:MediaCreateDate, File:FileModifyDate`. -/
theorem c7_sentinel_skipped :
    (∀ exif pre tag post v, dateTags = pre ++ tag :: post →
      exifGet exif tag = some v → pyStartsWith "0000" v = true →
      getDateAux exif (tag :: post) = getDateAux exif post) ∧
    (∀ exif, get_date exif = getDateAux exif dateTags) := by
  refine ⟨?_, fun _ => rfl⟩
  intro exif pre tag post v _ hv h0
  simp only [getDateAux]
  rw [hv]
  simp [h0]

/-- The C7 witness record: a sentinel capture date over a real filesystem date. -/
def c7exif : Exif :=
  [("EXIF:DateTimeOriginal", "0000:00:00 00:00:00"),
   ("File:FileModifyDate", "2016:11:06 02:59:05")]

/-- Witness for C7: the sentinel in `EXIF:DateTimeOriginal` makes resolution fall
through to the remaining three tags. -/
theorem c7_witness :
    getDateAux c7exif dateTags =
      getDateAux c7exif
        ["QuickTime:CreationDate", "QuickTime:MediaCreateDate", "File:FileModifyDate"] :=
  c7_sentinel_skipped.1 c7exif [] "EXIF:DateTimeOriginal"
    ["QuickTime:CreationDate", "QuickTime:MediaCreateDate", "File:FileModifyDate"]
    "0000:00:00 00:00:00" rfl rfl rfl

/-- C8: the prefix comes from splitting `File:MIMEType` on `/` and mapping the
top-level type through `{image: IMG, video: VID}`; `image/jpeg` gives `IMG`,
`video/quicktime` gives `VID`, `application/pdf` and an absent MIME type give no
prefix, and with no prefix `generate_name` returns `None` (no canonical name). -/
theorem c8_mime_table :
    (∀ exif, exifGet exif "File:MIMEType" = some "image/jpeg" →
      get_prefix exif = some "IMG") ∧
    (∀ exif, exifGet exif "File:MIMEType" = some "video/quicktime" →
      get_prefix exif = some "VID") ∧
    (∀ exif, exifGet exif "File:MIMEType" = some "application/pdf" →
      get_prefix exif = none) ∧
    (∀ exif, exifGet exif "File:MIMEType" = none → get_prefix exif = none) ∧
    (∀ exif mime, exifGet exif "File:MIMEType" = some mime → mime ≠ "" →
      get_prefix exif =
        List.lookup (String.mk (mime.toList.takeWhile (fun c => c != '/'))) ABBREVIATIONS) ∧
    (∀ exif retry cwd, get_prefix exif = none →
      generate_name exif retry cwd = Except.ok none) := by
  refine ⟨?_, ?_, ?_, ?_, ?_, ?_⟩
  · intro exif h
    unfold get_prefix
    rw [h]
    decide
  · intro exif h
    unfold get_prefix
    rw [h]
    decide
  · intro exif h
    unfold get_prefix
    rw [h]
    decide
  · intro exif h
    unfold get_prefix
    rw [h]
  · intro exif mime h hne
    unfold get_prefix
    rw [h]
    simp [beq_eq_false_iff_ne.mpr hne]
  · intro exif retry cwd h
    unfold generate_name
    rw [h]

/-- Witness for C8 at the worked example record. -/
theorem c8_witness : get_prefix sampleExif = some "IMG" :=
  c8_mime_table.1 sampleExif rfl

/-- Unfolding of `generate_name` once the prefix is present and the date resolution
has returned (everything then hinges on `check_for_live`). -/
theorem generate_name_eq (exif : Exif) (retry : Nat) (cwd : List String)
    (pfx : String) (date : Option String)
    (hpre : get_prefix exif = some pfx)
    (hdate : get_date exif = Except.ok date) :
    generate_name exif retry cwd =
      match check_for_live date (conflictStr retry) (exifGet exif "File:FileTypeExtension") cwd with
      | Except.error e => Except.error e
      | Except.ok (some live) => Except.ok (some live)
      | Except.ok none =>
        Except.ok (some (pfx ++ "_" ++ pyStr date ++ conflictStr retry ++ "_" ++
          get_model exif ++ "." ++ pyStr (exifGet exif "File:FileTypeExtension"))) := by
  unfold generate_name
  rw [hpre]
  dsimp only
  rw [hdate]

/-- Behaviour of `check_for_live` on the `MOV` branch with a present date: the result
is decided by the glob matches in the working directory. -/
theorem check_for_live_mov (d conflict : String) (cwd : List String) :
    check_for_live (some d) conflict (some "MOV") cwd =
      match cwd.filter (globLiveMatch (liveGlobPat d conflict)) with
      | [] => Except.ok none
      | [f] => Except.ok (some (splitextStem f ++ "." ++ "MOV"))
      | _ :: _ :: _ => Except.ok none := by
  unfold check_for_live
  rw [if_pos (by decide)]
  dsimp only [pyStr]

/-- C5: for a record with extension `MOV` (and a resolved date and `VID` prefix), the
name generator searches the working directory for `IMG_<date-with-offset-chopped><conflict>_*.JPG`;
exactly one match makes the generated name that match's stem with extension `.MOV`,
while zero or several matches produce the standard `VID_<date><conflict>_<model>.MOV`
form; and for any non-`MOV` extension the live-photo search returns `None`, never
altering the name. -/
theorem c5_live_adoption :
    (∀ exif retry cwd d,
      exifGet exif "File:FileTypeExtension" = some "MOV" →
      get_prefix exif = some "VID" →
      get_date exif = Except.ok (some d) →
      (cwd.filter (globLiveMatch (liveGlobPat d (conflictStr retry))) = [] →
        generate_name exif retry cwd =
          Except.ok (some ("VID" ++ "_" ++ d ++ conflictStr retry ++ "_" ++
            get_model exif ++ "." ++ "MOV"))) ∧
      (∀ f, cwd.filter (globLiveMatch (liveGlobPat d (conflictStr retry))) = [f] →
        generate_name exif retry cwd =
          Except.ok (some (splitextStem f ++ "." ++ "MOV"))) ∧
      (∀ f1 f2 rest,
        cwd.filter (globLiveMatch (liveGlobPat d (conflictStr retry))) = f1 :: f2 :: rest →
        generate_name exif retry cwd =
          Except.ok (some ("VID" ++ "_" ++ d ++ conflictStr retry ++ "_" ++
            get_model exif ++ "." ++ "MOV")))) ∧
    (∀ date conflict ext cwd, ext ≠ some "MOV" →
      check_for_live date conflict ext cwd = Except.ok none) := by
  constructor
  · intro exif retry cwd d hext hpre hdate
    have hg := generate_name_eq exif retry cwd "VID" (some d) hpre hdate
    rw [hext, check_for_live_mov d (conflictStr retry) cwd] at hg
    refine ⟨?_, ?_, ?_⟩
    · intro hf
      rw [hf] at hg
      simpa [pyStr] using hg
    · intro f hf
      rw [hf] at hg
      simpa [pyStr] using hg
    · intro f1 f2 rest hf
      rw [hf] at hg
      simpa [pyStr] using hg
  · intro date conflict ext cwd h
    exact check_for_live_not_mov date conflict ext cwd (beq_eq_false_iff_ne.mpr h)

/-- Witness for C5: one matching live-photo counterpart in the working directory is
adopted as the movie's name. -/
theorem c5_witness :
    generate_name movExif 0 ["IMG_20161211T133433_x.JPG"] =
      Except.ok (some "IMG_20161211T133433_x.MOV") :=
  (c5_live_adoption.1 movExif 0 ["IMG_20161211T133433_x.JPG"] "20161211T133433+1300"
    rfl rfl rfl).2.1 "IMG_20161211T133433_x.JPG" (by decide)

/-- The head of a non-empty `dropWhile` fixed point does not satisfy the predicate. -/
theorem dropWhile_self_head_false (p : Char → Bool) (c : Char) (cs : List Char)
    (h : List.dropWhile p (c :: cs) = c :: cs) : p c = false := by
  have h0 : 0 < (c :: cs).length := by simp
  have h1 := List.dropWhile_eq_self_iff.mp h h0
  simpa using h1

/-- A character map that never introduces a to-be-stripped character preserves the
fixed points of `dropWhile`. -/
theorem dropWhile_map_self (p : Char → Bool) (f : Char → Char)
    (hf : ∀ c, p c = false → p (f c) = false) :
    ∀ l : List Char, List.dropWhile p l = l →
      List.dropWhile p (l.map f) = l.map f := by
  intro l hl
  cases l with
  | nil => simp
  | cons c cs =>
    have hc : p c = false := dropWhile_self_head_false p c cs hl
    simp [List.dropWhile_cons, hc, hf c hc]

/-- Reverse-side analogue of `dropWhile_map_self` for `rdropWhile`. -/
theorem rdropWhile_map_self (p : Char → Bool) (f : Char → Char)
    (hf : ∀ c, p c = false → p (f c) = false)
    (l : List Char) (hl : List.rdropWhile p l = l) :
    List.rdropWhile p (l.map f) = l.map f := by
  have hrev : List.dropWhile p l.reverse = l.reverse := by
    have := congrArg List.reverse hl
    simpa [List.rdropWhile] using this
  have hmap := dropWhile_map_self p f hf l.reverse hrev
  rw [List.rdropWhile, ← List.map_reverse, hmap, List.map_reverse, List.reverse_reverse]

/-- A prefix of a `dropWhile` fixed point is itself a fixed point. -/
theorem dropWhile_eq_self_of_isPrefix (p : Char → Bool) (w v : List Char)
    (hw : List.dropWhile p w = w) (hpre : v <+: w) :
    List.dropWhile p v = v := by
  cases v with
  | nil => simp
  | cons c vs =>
    obtain ⟨t, ht⟩ := hpre
    have hw2 : List.dropWhile p (c :: (vs ++ t)) = c :: (vs ++ t) := by
      rw [← ht] at hw
      exact hw
    have hc : p c = false := dropWhile_self_head_false p c (vs ++ t) hw2
    simp [List.dropWhile_cons, hc]

/-- The stripped character list (leading then trailing whitespace removed) is a fixed
point of the leading strip. -/
theorem stripped_dropWhile_fixed (p : Char → Bool) (l : List Char) :
    List.dropWhile p ((l.dropWhile p).rdropWhile p) = (l.dropWhile p).rdropWhile p :=
  dropWhile_eq_self_of_isPrefix p (l.dropWhile p) _
    (List.dropWhile_idempotent p l) (List.rdropWhile_prefix p (l.dropWhile p))

/-- C9: `slugify` returns the literal `noEXIF` for an absent or empty input and
otherwise trims whitespace and maps the remaining spaces to hyphens — the worked
example gives `Canon-EOS-10D`, the output never contains a space, and the output
carries no leading or trailing whitespace (stripping it again is the identity). -/
theorem c9_slugify_shape :
    slugify (some " Canon EOS 10D ") = "Canon-EOS-10D" ∧
    slugify none = "noEXIF" ∧
    slugify (some "") = "noEXIF" ∧
    (∀ s : String, ((slugify (some s)).toList.all fun c => c != ' ') = true) ∧
    (∀ s : String, pyStrip (slugify (some s)) = slugify (some s)) := by
  have hf : ∀ c, pyIsSpace c = false → pyIsSpace (spaceToHyphen c) = false := by
    intro c hc
    unfold spaceToHyphen
    split
    · decide
    · exact hc
  refine ⟨by decide, rfl, rfl, ?_, ?_⟩
  · intro s
    by_cases hs : s = ""
    · subst hs
      decide
    · simp only [slugify, if_neg hs]
      rw [List.all_eq_true]
      intro c hc
      simp only [String.toList] at hc
      obtain ⟨a, _, ha⟩ := List.mem_map.mp hc
      subst ha
      unfold spaceToHyphen
      split
      · decide
      · next h => simpa using h
  · intro s
    by_cases hs : s = ""
    · subst hs
      decide
    · simp only [slugify, if_neg hs]
      unfold pyStrip
      show String.mk (List.rdropWhile pyIsSpace (List.dropWhile pyIsSpace
        (((s.toList.dropWhile pyIsSpace).rdropWhile pyIsSpace).map spaceToHyphen))) = _
      rw [dropWhile_map_self pyIsSpace spaceToHyphen hf _
            (stripped_dropWhile_fixed pyIsSpace s.toList),
          rdropWhile_map_self pyIsSpace spaceToHyphen hf _
            (List.rdropWhile_idempotent pyIsSpace (s.toList.dropWhile pyIsSpace))]
      rfl

/-- C4 (amended): when the first candidate target exists, the duplicate-versus-collision
decision is `filecmp.cmp` at its default shallow setting: a `True` verdict stops the
rename as the non-fatal `AlreadyIdentical` outcome and a `False` verdict moves on to
retry count 1; the verdict itself is `True` outright whenever the two stat signatures
(size, mtime) coincide — without reading content — and only falls back to byte
comparison when they differ. -/
theorem c4_filecmp_decides (src : FileData) (fs : String → Option FileData) (exif : Exif)
    (cwd : List String) (maxR : Nat) (name : String) (tgt : FileData)
    (hgen : generate_name exif 0 cwd = Except.ok (some name))
    (hfs : fs name = some tgt) :
    (filecmp_cmp src tgt = true →
      rename src fs exif cwd maxR = RenameResult.alreadyExists name) ∧
    (filecmp_cmp src tgt = false →
      rename src fs exif cwd maxR = renameLoop src fs exif cwd maxR 1) ∧
    (statSig src = statSig tgt → filecmp_cmp src tgt = true) ∧
    (statSig src ≠ statSig tgt →
      (filecmp_cmp src tgt = true ↔ src.bytes = tgt.bytes)) := by
  refine ⟨?_, ?_, ?_, ?_⟩
  · intro hcmp
    exact renameLoop_identical src fs exif cwd maxR 0 name tgt hgen hfs hcmp
  · intro hcmp
    exact renameLoop_collide src fs exif cwd maxR 0 name tgt hgen hfs hcmp (Nat.zero_le maxR)
  · intro hsig
    unfold filecmp_cmp
    rw [if_pos (by simp [hsig])]
  · intro hsig
    unfold filecmp_cmp
    rw [beq_eq_false_iff_ne.mpr hsig, if_neg Bool.false_ne_true]
    by_cases hlen : src.bytes.length = tgt.bytes.length
    · have hb : (src.bytes.length != tgt.bytes.length) = false := by simp [hlen]
      rw [hb, if_neg Bool.false_ne_true]
      exact beq_iff_eq
    · have hb : (src.bytes.length != tgt.bytes.length) = true := by simp [hlen]
      rw [hb, if_pos rfl]
      constructor
      · intro hft
        exact absurd hft Bool.false_ne_true
      · intro hby
        exact absurd (congrArg List.length hby) hlen

/-- Source-side file of the rename counterexamples: one byte `0`, mtime 7. -/
def c4src : FileData := ⟨7, [0]⟩

/-- A target file with the same stat signature (same size, same mtime) as `c4src` but
different content. -/
def c4tgt : FileData := ⟨7, [1]⟩

/-- Directory state for the C4 counterexample: the first candidate name is occupied by
`c4tgt`. -/
def c4fs : String → Option FileData :=
  fun n => if n == "IMG_20161211T133433+1300_Canon-EOS-10D.JPG" then some c4tgt else none

/-- C4 counterexample: the existing target's bytes differ from the source, yet `rename`
stops as the duplicate-detected success and never tries a disambiguated name — the
shallow `filecmp.cmp` deems equal-signature files identical without comparing bytes,
so the decision is not byte-identical comparison. -/
theorem c4_counterexample :
    c4src.bytes ≠ c4tgt.bytes ∧
    filecmp_cmp c4src c4tgt = true ∧
    rename c4src c4fs sampleExif [] 20 =
      RenameResult.alreadyExists "IMG_20161211T133433+1300_Canon-EOS-10D.JPG" := by
  refine ⟨by decide, by decide, ?_⟩
  exact renameLoop_identical c4src c4fs sampleExif [] 20 0
    "IMG_20161211T133433+1300_Canon-EOS-10D.JPG" c4tgt rfl (by decide) (by decide)

/-- Directory state for the C4 witness: the first candidate name is occupied by a file
identical to the source. -/
def c4fs2 : String → Option FileData :=
  fun n => if n == "IMG_20161211T133433+1300_Canon-EOS-10D.JPG" then some c4src else none

/-- Witness for C4 (amended): an identical existing target yields `AlreadyIdentical`. -/
theorem c4_witness :
    rename c4src c4fs2 sampleExif [] 20 =
      RenameResult.alreadyExists "IMG_20161211T133433+1300_Canon-EOS-10D.JPG" :=
  (c4_filecmp_decides c4src c4fs2 sampleExif [] 20
    "IMG_20161211T133433+1300_Canon-EOS-10D.JPG" c4src rfl (by decide)).1 (by decide)

/-- C2 (amended): `rename` reports failure, leaving the source name in place, when the
candidates for every retry count up to `maxRename + 1` — with the default cap 20 that
is the 22 counts 0 through 21, not 21 of them — all name existing files that
`filecmp.cmp` reports different from the source. -/
theorem c2_exhaustion (src : FileData) (fs : String → Option FileData) (exif : Exif)
    (cwd : List String) (maxR : Nat)
    (h : ∀ k, k ≤ maxR + 1 → ∃ name tgt,
      generate_name exif k cwd = Except.ok (some name) ∧
      fs name = some tgt ∧ filecmp_cmp src tgt = false) :
    rename src fs exif cwd maxR = RenameResult.exhausted :=
  renameLoop_exhausts src fs exif cwd maxR (maxR + 1) 0 (by omega) (by omega)
    (fun k _ hk => h k hk)

/-- A colliding target for the C2 scenarios: differs from `c4src` in size and bytes. -/
def c2tgt : FileData := ⟨9, [1, 2]⟩

/-- Directory state for the C2 witness (cap 0): candidates 0 and 1 both collide. -/
def c2wfs : String → Option FileData :=
  fun n =>
    if n == "IMG_20161211T133433+1300_Canon-EOS-10D.JPG" ||
       n == "IMG_20161211T133433+1300-1_Canon-EOS-10D.JPG" then some c2tgt else none

/-- Witness for C2 (amended) at cap 0: two colliding candidates exhaust the rename. -/
theorem c2_witness :
    rename c4src c2wfs sampleExif [] 0 = RenameResult.exhausted :=
  c2_exhaustion c4src c2wfs sampleExif [] 0 (by
    intro k hk
    interval_cases k
    · exact ⟨"IMG_20161211T133433+1300_Canon-EOS-10D.JPG", c2tgt, rfl, by decide, by decide⟩
    · exact ⟨"IMG_20161211T133433+1300-1_Canon-EOS-10D.JPG", c2tgt, rfl, by decide, by decide⟩)

/-- The candidate names for retry counts 0 through 20 of the worked example record. -/
def c2names : List String :=
  (List.range 21).map (fun k =>
    "IMG_20161211T133433+1300" ++ conflictStr k ++ "_Canon-EOS-10D.JPG")

/-- Directory state for the C2 counterexample: the candidates for retry counts 0
through 20 are all occupied by content-differing files; nothing else exists. -/
def c2fs : String → Option FileData :=
  fun n => if c2names.contains n then some c2tgt else none

/-- C2 counterexample: with the default cap of 20, all 21 candidates for retry counts
0 through 20 name existing files whose content differs from the source — yet `rename`
does not report failure: it still attempts the candidate for retry count 21 (after the
count has exceeded 20) and renames the source to it. -/
theorem c2_counterexample :
    (∀ k, k < 21 → generate_name sampleExif k [] =
      Except.ok (some ("IMG_20161211T133433+1300" ++ conflictStr k ++
        "_Canon-EOS-10D.JPG"))) ∧
    (∀ k, k < 21 →
      c2fs ("IMG_20161211T133433+1300" ++ conflictStr k ++ "_Canon-EOS-10D.JPG") =
        some c2tgt) ∧
    filecmp_cmp c4src c2tgt = false ∧
    rename c4src c2fs sampleExif [] 20 =
      RenameResult.renamed "IMG_20161211T133433+1300-21_Canon-EOS-10D.JPG" := by
  have hgen : ∀ k, k < 21 → generate_name sampleExif k [] =
      Except.ok (some ("IMG_20161211T133433+1300" ++ conflictStr k ++
        "_Canon-EOS-10D.JPG")) := by decide
  have hfs : ∀ k, k < 21 →
      c2fs ("IMG_20161211T133433+1300" ++ conflictStr k ++ "_Canon-EOS-10D.JPG") =
        some c2tgt := by decide
  refine ⟨hgen, hfs, by decide, ?_⟩
  exact renameLoop_renamed_after c4src c2fs sampleExif [] 20 21 0 21
    "IMG_20161211T133433+1300-21_Canon-EOS-10D.JPG" (by omega) (by omega) (by omega)
    (fun k _ h2 =>
      ⟨"IMG_20161211T133433+1300" ++ conflictStr k ++ "_Canon-EOS-10D.JPG", c2tgt,
        hgen k h2, hfs k h2, by decide⟩)
    (by decide) (by decide)

end Extool
